import Mathlib

/-!
# Verification of the `chilly-rs` scene pipeline

A shallow embedding, in Lean 4, of the parts of the `chilly-rs` repository
that the specification's claims are about:

* the solidifier (`src/solidify.rs`): the `TileNeighbors` bitmask, the
  bitmask → animation-frame table, the neighbor probing macro and the
  per-cell variant fold;
* color parsing and display (`src/database/structures.rs`);
* the flag alias table (`src/arguments/flags.rs`);
* the meta-outline kernel builder (`src/renderer/mod.rs`);
* sprite opening with the fallback path (`src/renderer/mod.rs`);
* implicit tile-name reuse in the parser (`src/parser/mod.rs`);
* the `editor_objectlist.lua` merge policy (`src/database/assets.rs`).

Machine integers (`u8`, `u32`, `usize`) are embedded as `Nat` with explicit
`% 2^w` arithmetic where the source relies on wrapping; fallible code
returns `Option`, and a `Rust` panic (an `expect` firing) is embedded as
`none`.
-/

namespace Chilly

/-! ## `TileNeighbors` (src/solidify.rs, `bitflags!` block)

The Rust type is a `bitflags` wrapper over `u8`; we embed it as a `Nat`
below 256.  `contains`, `remove` and `intersection` follow the `bitflags`
crate semantics: `a.contains(b) ↔ a & b == b`, `a.remove(b)` clears the
bits of `b`, `intersection` is bitwise and. -/

namespace TileNeighbors

def RIGHT : Nat := 0b10000000
def UP : Nat := 0b01000000
def LEFT : Nat := 0b00100000
def DOWN : Nat := 0b00010000
def UPRIGHT : Nat := 0b00001000
def UPLEFT : Nat := 0b00000100
def DOWNLEFT : Nat := 0b00000010
def DOWNRIGHT : Nat := 0b00000001

def CARDINAL : Nat := UP ||| LEFT ||| DOWN ||| RIGHT

/-- `bitflags` `contains`: all bits of `other` are present in `self`. -/
def contains (self other : Nat) : Bool := self &&& other == other

/-- `bitflags` `remove`: clear the bits of `other` (flag universe is 8 bits). -/
def remove (self other : Nat) : Nat := self &&& (0b11111111 ^^^ other)

/-- `bitflags` `intersection`: bitwise and. -/
def intersection (self other : Nat) : Nat := self &&& other

/-- `TileNeighbors::into_frame` (src/solidify.rs:291-344): the fixed
47-entry bitmask → animation-frame table. -/
def into_frame (self : Nat) : Option Nat :=
  match self with
  | 0b00000000 => some 0
  | 0b10000000 => some 1
  | 0b01000000 => some 2
  | 0b11000000 => some 3
  | 0b00100000 => some 4
  | 0b10100000 => some 5
  | 0b01100000 => some 6
  | 0b11100000 => some 7
  | 0b00010000 => some 8
  | 0b10010000 => some 9
  | 0b01010000 => some 10
  | 0b11010000 => some 11
  | 0b00110000 => some 12
  | 0b10110000 => some 13
  | 0b01110000 => some 14
  | 0b11110000 => some 15
  | 0b11001000 => some 16
  | 0b11101000 => some 17
  | 0b11011000 => some 18
  | 0b11111000 => some 19
  | 0b01100100 => some 20
  | 0b11100100 => some 21
  | 0b01110100 => some 22
  | 0b11110100 => some 23
  | 0b11101100 => some 24
  | 0b11111100 => some 25
  | 0b00110010 => some 26
  | 0b10110010 => some 27
  | 0b01110010 => some 28
  | 0b11110010 => some 29
  | 0b11111010 => some 30
  | 0b01110110 => some 31
  | 0b11110110 => some 32
  | 0b11111110 => some 33
  | 0b10010001 => some 34
  | 0b11010001 => some 35
  | 0b10110001 => some 36
  | 0b11110001 => some 37
  | 0b11011001 => some 38
  | 0b11111001 => some 39
  | 0b11110101 => some 40
  | 0b11111101 => some 41
  | 0b10110011 => some 42
  | 0b11110011 => some 43
  | 0b11111011 => some 44
  | 0b11110111 => some 45
  | 0b11111111 => some 46
  | _ => none

/-- `TileNeighbors::into_frames` (src/solidify.rs:270-288), embedded
exactly as written: the guard of each diagonal removal is
`!self.contains(A & B)` for two *disjoint* single-bit flags `A`, `B`
(so the argument of `contains` is the empty flag set), and the two
`expect` panics are embedded as `none`. -/
def into_frames (self : Nat) : Option (Nat × Nat) :=
  let s1 := if ¬ contains self (RIGHT &&& UP) then remove self UPRIGHT else self
  let s2 := if ¬ contains s1 (RIGHT &&& DOWN) then remove s1 DOWNRIGHT else s1
  let s3 := if ¬ contains s2 (LEFT &&& DOWN) then remove s2 DOWNLEFT else s2
  let s4 := if ¬ contains s3 (LEFT &&& UP) then remove s3 UPLEFT else s3
  match into_frame s4 with
  | none => none
  | some regular =>
    match into_frame (intersection s4 CARDINAL) with
    | none => none
    | some fallback => some (regular, fallback)

end TileNeighbors

/-! ## Positions and the neighbor probe (src/structures.rs, src/solidify.rs)

The solidifier's positions are `Position<usize>`; we embed `usize` as an
unbounded `Nat` (so of `checked_add_signed`'s two failure modes only the
negative one can fire, which is the one the scene sizes can reach).
`check_neighbors!` probes the tile map keyed by `Position`; we carry the
key set of that map as a list. -/

structure Position where
  x : Nat
  y : Nat
  z : Nat
  t : Nat
deriving DecidableEq, Repr

/-- `usize::checked_add_signed`: `none` when the sum would go below zero. -/
def checked_add_signed (n : Nat) (d : Int) : Option Nat :=
  if (n : Int) + d < 0 then none else some ((n : Int) + d).toNat

/-- One expansion of the `check_neighbors!` macro (src/solidify.rs:36-57)
for the offset `(dx, dy)`.  The source computes the probed `x` from
`$seed.x.checked_add_signed($x)` and the probed `y` from
`$seed.x.checked_add_signed($y)` — both from `seed.x`; the embedding keeps
that as written.  A failed `checked_add_signed` yields `conn_corners`. -/
def check_neighbor (map : List Position) (seed : Position) (dx dy : Int)
    (conn_corners : Bool) : Bool :=
  match checked_add_signed seed.x dx with
  | some x =>
    match checked_add_signed seed.x dy with
    | some y => map.contains { x := x, y := y, z := seed.z, t := seed.t }
    | none => conn_corners
  | none => conn_corners

/-- The whole `check_neighbors!` invocation of `RawScene::solidify`
(src/solidify.rs:181-191): accumulate the eight direction bits in the
order written in the source. -/
def check_neighbors_mask (map : List Position) (seed : Position)
    (conn : Bool) : Nat :=
  let acc : Nat := 0
  let acc := if check_neighbor map seed 1 0 conn then acc ||| TileNeighbors.RIGHT else acc
  let acc := if check_neighbor map seed 0 (-1) conn then acc ||| TileNeighbors.UP else acc
  let acc := if check_neighbor map seed (-1) 0 conn then acc ||| TileNeighbors.LEFT else acc
  let acc := if check_neighbor map seed 0 1 conn then acc ||| TileNeighbors.DOWN else acc
  let acc := if check_neighbor map seed 1 (-1) conn then acc ||| TileNeighbors.UPRIGHT else acc
  let acc := if check_neighbor map seed (-1) (-1) conn then acc ||| TileNeighbors.UPLEFT else acc
  let acc := if check_neighbor map seed (-1) 1 conn then acc ||| TileNeighbors.DOWNLEFT else acc
  let acc := if check_neighbor map seed 1 1 conn then acc ||| TileNeighbors.DOWNRIGHT else acc
  acc

/-! ## Colors (src/database/structures.rs)

`u8` components are embedded as `Nat`; the `#RRGGBB` branch of
`Color::from_str` parses the six digits as a `u32` via
`u32::from_str_radix(_, 16)` (an optional leading `+` is part of that
function's grammar; overflow is unreachable here because the caller has
already fixed the length to six digits) and then destructures
`rgb.to_be_bytes()` — big-endian, most-significant byte first — with the
pattern `[r, g, b, _]`, exactly as the source writes it. -/

inductive Color where
  | Paletted (x y : Nat)
  | RGB (r g b : Nat)
deriving DecidableEq, Repr

inductive ColorError where
  | WrongLength
  | NotHex
  | InvalidName (name : String)
deriving DecidableEq, Repr

instance {ε α : Type} [DecidableEq ε] [DecidableEq α] :
    DecidableEq (Except ε α) := fun a b =>
  match a, b with
  | .ok x, .ok y =>
    match decEq x y with
    | isTrue h => isTrue (by rw [h])
    | isFalse h => isFalse (by intro hc; cases hc; exact h rfl)
  | .error x, .error y =>
    match decEq x y with
    | isTrue h => isTrue (by rw [h])
    | isFalse h => isFalse (by intro hc; cases hc; exact h rfl)
  | .ok _, .error _ => isFalse (by intro hc; cases hc)
  | .error _, .ok _ => isFalse (by intro hc; cases hc)

/-- One hexadecimal digit, both cases accepted. -/
def hexDigit (c : Char) : Option Nat :=
  if '0' ≤ c ∧ c ≤ '9' then some (c.toNat - '0'.toNat)
  else if 'a' ≤ c ∧ c ≤ 'f' then some (c.toNat - 'a'.toNat + 10)
  else if 'A' ≤ c ∧ c ≤ 'F' then some (c.toNat - 'A'.toNat + 10)
  else none

/-- `u32::from_str_radix(s, 16)` on the characters of `s`: optional `+`
sign, then one or more hex digits. -/
def from_str_radix16 (s : List Char) : Option Nat :=
  let chars := match s with
    | '+' :: rest => rest
    | cs => cs
  if chars.isEmpty then none
  else chars.foldlM (fun acc c => (hexDigit c).map (fun d => acc * 16 + d)) 0

/-- `Color::from_str` (src/database/structures.rs:92-133).  The
`v.starts_with('#')` / `v.strip_prefix('#')` pair is embedded as one match
on the character list, and `v.len()` (a byte count) as `utf8ByteSize`. -/
def Color.from_str (v : String) : Except ColorError Color :=
  match v.data with
  | '#' :: rgbChars =>
    if v.utf8ByteSize ≠ 7 then .error .WrongLength
    else
      match from_str_radix16 rgbChars with
      | none => .error .NotHex
      | some rgb =>
        let r := rgb / 16777216 % 256
        let g := rgb / 65536 % 256
        let b := rgb / 256 % 256
        .ok (.RGB r g b)
  | _ => match v with
    | "maroon" => .ok (.Paletted 2 1)
    | "gold" => .ok (.Paletted 6 2)
    | "teal" => .ok (.Paletted 1 2)
    | "red" => .ok (.Paletted 2 2)
    | "orange" => .ok (.Paletted 2 3)
    | "yellow" => .ok (.Paletted 2 4)
    | "lime" => .ok (.Paletted 5 3)
    | "green" => .ok (.Paletted 5 2)
    | "cyan" => .ok (.Paletted 1 4)
    | "blue" => .ok (.Paletted 3 2)
    | "purple" => .ok (.Paletted 3 1)
    | "pink" => .ok (.Paletted 4 1)
    | "rosy" => .ok (.Paletted 4 2)
    | "grey" | "gray" => .ok (.Paletted 0 1)
    | "black" => .ok (.Paletted 0 4)
    | "silver" => .ok (.Paletted 0 2)
    | "white" => .ok (.Paletted 0 3)
    | "brown" => .ok (.Paletted 6 1)
    | "darkpink" => .ok (.RGB 0x80 0x00 0x3B)
    | _ => .error (.InvalidName v)

/-- Uppercase hexadecimal digit, for the Display impl's `{r:02X}`. -/
def hexDigitUpper (n : Nat) : Char :=
  if n < 10 then Char.ofNat ('0'.toNat + n) else Char.ofNat ('A'.toNat + n - 10)

/-- Two-digit uppercase hex rendering of a byte (`{:02X}`). -/
def hex2 (n : Nat) : String :=
  ⟨[hexDigitUpper (n / 16 % 16), hexDigitUpper (n % 16)]⟩

/-- `impl Display for Color` (src/database/structures.rs:68-75). -/
def Color.display : Color → String
  | .Paletted x y => "(" ++ toString x ++ ", " ++ toString y ++ ")"
  | .RGB r g b => "#" ++ hex2 r ++ hex2 g ++ hex2 b

/-! ## Flag aliases (src/arguments/flags.rs)

The `flags!` macro invocation at the bottom of the file declares the
`FlagName` enum and derives `from_alias` from the alias columns.  The
declaration table contains exactly three flags. -/

inductive FlagName where
  | BackgroundColor
  | ConnectBorders
  | UseLetters
deriving DecidableEq, Repr

/-- `FlagName::from_alias` (src/arguments/flags.rs:47-56), derived from the
declaration table at src/arguments/flags.rs:115-134. -/
def FlagName.from_alias (a : String) : Option FlagName :=
  match a with
  | "b" | "background" => some .BackgroundColor
  | "tb" | "tile_borders" => some .ConnectBorders
  | "letters" | "let" => some .UseLetters
  | _ => none

/-! ## The meta-outline kernel (src/renderer/mod.rs:329-357)

`MetaKernel::of_size` builds a grayscale image of side `2*size + 1` via
`GrayImage::from_fn(width, width, pixel)`; `from_fn` evaluates the closure
at every `(x, y)` with `x < width` and `y < width`.  We embed the closure
itself; each Rust arm is a run of `if` statements over a mutable
`draw_pixel`, embedded as a chain of `let` rebindings. -/

inductive MetaKernel where
  | Full
  | Edge
  | Unit
deriving DecidableEq, Repr

namespace MetaKernel

/-- The `from_fn` closure of `MetaKernel::of_size`, as written in the
source: the `Edge` and `Unit` arms compare against `width`, not
`width - 1`. -/
def of_size_pixel (self : MetaKernel) (size : Nat) (x y : Nat) : Nat :=
  let center := size
  let width := center * 2 + 1
  let draw_pixel := true
  let draw_pixel :=
    match self with
    | Full =>
      if x == center && y == center then false else draw_pixel
    | Edge =>
      let d := if x == center && y == center then false else draw_pixel
      let d := if x == 0 && y == 0 then false else d
      let d := if x == 0 && y == width then false else d
      let d := if x == width && y == 0 then false else d
      let d := if x == width && y == width then false else d
      d
    | Unit =>
      let d := if x == center && y == center then false else draw_pixel
      let d := if x == 0 && y == 0 then false else d
      let d := if x == width && y == 0 then false else d
      d
  if draw_pixel then 255 else 0

end MetaKernel

/-! ## Variants, tiling modes and tile data
(src/arguments/variants.rs, src/database/structures.rs, src/database/assets.rs)

`Variant` is the sum declared by the `variants!` macro invocation
(src/arguments/variants.rs:139-225); numeric `u8` payloads are embedded as
`Nat` and `isize` as `Int`.  `TileData` carries the fields of the latest
revision of the structure, i.e. the one `Database::parse_data_from_strings`
(src/database/assets.rs:220-231) constructs: this includes `grid_index` and
`tags` on top of the fields listed in src/database/structures.rs. -/

inductive TilingDirection where
  | Up
  | Down
  | Left
  | Right
  | UpRight
  | UpLeft
  | DownLeft
  | DownRight
deriving DecidableEq, Repr

inductive Variant where
  | Meta (level : Option Nat) (kernel : Option MetaKernel) (size : Option Nat)
  | Noop
  | AnimationFrame (frame : Nat)
  | Left
  | Up
  | Down
  | Right
  | Sleep
  | Animation (cycle : Nat)
  | Tiling (directions : List TilingDirection)
  | Color (color : Color)
  | Displace (dx dy : Int)
deriving DecidableEq, Repr

inductive Tiling where
  | None
  | Directional
  | AutoTiled
  | Character
  | AnimDir
  | Animated
deriving DecidableEq, Repr

structure TileData where
  color : Color
  sprite : String
  directory : String
  tiling : Tiling
  author : String
  tile_index : Option (Nat × Nat)
  grid_index : Option (Nat × Nat)
  object_id : Option String
  layer : Option Nat
  tags : List String
deriving DecidableEq, Repr

/-- `impl Default for TileData` (src/database/structures.rs:222-235), with
the empty set for the `tags` field of the later revision. -/
def TileData.default : TileData :=
  { color := .Paletted 0 3
    sprite := "error"
    directory := "vanilla"
    tiling := .None
    author := "Hempuli"
    tile_index := none
    grid_index := none
    object_id := none
    layer := none
    tags := [] }

/-! ## The solidifier's variant fold (src/solidify.rs:113-160)

The per-cell closure folds the tile's variant list with a mutable
`anim_frame: Option<(u8, u8)>`, consuming frame-setting variants (the
`filter` returns `false` for them) and keeping the rest.  `u8` wrapping
arithmetic (`wrapping_sub(1)` in the `Sleep` arm, `+=` in the `Animation`
arm) is `% 256` arithmetic on `Nat`.  The `Tiling` arm calls
`into_frames`, which can panic; a panic is `none` at the outer level. -/

def ANIM_RIGHT : Nat := 0
def ANIM_UP : Nat := 8
def ANIM_LEFT : Nat := 16
def ANIM_DOWN : Nat := 24

/-- `TilingDirection → TileNeighbors` match inside the `Tiling` arm
(src/solidify.rs:142-151). -/
def TilingDirection.toBit : TilingDirection → Nat
  | .Up => TileNeighbors.UP
  | .Down => TileNeighbors.DOWN
  | .Left => TileNeighbors.LEFT
  | .Right => TileNeighbors.RIGHT
  | .UpRight => TileNeighbors.UPRIGHT
  | .UpLeft => TileNeighbors.UPLEFT
  | .DownLeft => TileNeighbors.DOWNLEFT
  | .DownRight => TileNeighbors.DOWNRIGHT

/-- One step of the variant fold: the `match variant` inside the `filter`
closure (src/solidify.rs:117-157).  Returns the new `anim_frame` and the
`filter`'s keep flag, or `none` if the step panics. -/
def apply_frame_variant (anim_frame : Option (Nat × Nat)) (v : Variant) :
    Option (Option (Nat × Nat) × Bool) :=
  match v with
  | .AnimationFrame frame => some (some (frame, frame), false)
  | .Left => some (some (ANIM_LEFT, ANIM_LEFT), false)
  | .Up => some (some (ANIM_UP, ANIM_UP), false)
  | .Down => some (some (ANIM_DOWN, ANIM_DOWN), false)
  | .Right => some (some (ANIM_RIGHT, ANIM_RIGHT), false)
  | .Sleep =>
    let frame := (anim_frame.getD (0, 0)).1
    let sleep_frame := ((frame + 255) % 256) % 32
    some (some (sleep_frame, frame), false)
  | .Animation cycle =>
    let frame := (anim_frame.getD (0, 0)).1
    let frame := (frame + cycle) % 256
    some (some (frame, frame), false)
  | .Tiling directions =>
    let tiling := directions.foldl (fun acc d => acc ||| d.toBit) 0
    match TileNeighbors.into_frames tiling with
    | none => none
    | some frames => some (some frames, false)
  | _ => some (anim_frame, true)

/-- One fold transition: thread the `anim_frame` state and collect the
variant when the `filter` keeps it. -/
def fold_step (st : Option (Nat × Nat) × List Variant) (v : Variant) :
    Option (Option (Nat × Nat) × List Variant) :=
  (apply_frame_variant st.1 v).map
    (fun r => (r.1, if r.2 then st.2 ++ [v] else st.2))

/-- The whole fold: `tile.variants.into_iter().filter(...).collect()`
together with the `anim_frame` it accumulates.  Returns the final
`anim_frame` and the kept (`new_variants`) list, or `none` on panic. -/
def fold_frame_variants (variants : List Variant) :
    Option (Option (Nat × Nat) × List Variant) :=
  variants.foldlM fold_step (none, [])

/-! ## The per-cell tail of `RawScene::solidify` (src/solidify.rs:162-208)

After the fold, the cell's canonical name is (possibly) rewritten by the
`2` easter egg — a uniformly random database draw — and then looked up in
the database.  We parameterize over the lookup's outcome `dbResult`
(`db.tiles.get(name)` for whatever name the cell ended up with), which
covers every possible draw.  The `span` is an opaque token. -/

inductive TileSkeletonType where
  | Existing (data : TileData)
  | Generative (name : String)
deriving DecidableEq, Repr

structure TileSkeleton where
  data : TileSkeletonType
  animation_frame : Nat × Nat
  variants : List Variant
  span : Nat
deriving DecidableEq, Repr

/-- The construction of one output cell (src/solidify.rs:113-208): fold the
variants, then — for a database-backed tile with no frame set whose tiling
is `AutoTiled` — derive the frame pair from the spatial neighbors, and
default a still-unset frame to `(0, 0)` (`unwrap_or_default`).  `none` is a
panic (either fold arm or the `into_frames` `expect`s). -/
def solidify_cell (dbResult : Option TileData) (map : List Position)
    (pos : Position) (connect_corners : Bool) (name : String)
    (variants : List Variant) (span : Nat) : Option TileSkeleton :=
  match fold_frame_variants variants with
  | none => none
  | some (anim_frame, new_variants) =>
    match dbResult with
    | some data =>
      if anim_frame = none ∧ data.tiling = Tiling.AutoTiled then
        match TileNeighbors.into_frames
            (check_neighbors_mask map pos connect_corners) with
        | none => none
        | some frames =>
          some ⟨.Existing data, frames, new_variants, span⟩
      else
        some ⟨.Existing data, anim_frame.getD (0, 0), new_variants, span⟩
    | none =>
      some ⟨.Generative name, anim_frame.getD (0, 0), new_variants, span⟩

/-- The frame-setting variants: the arms of the fold's `match` that set
`anim_frame` and are dropped by the `filter`; everything else hits the
`_ => return true` arm. -/
def is_frame_setting : Variant → Bool
  | .AnimationFrame _ => true
  | .Left => true
  | .Up => true
  | .Down => true
  | .Right => true
  | .Sleep => true
  | .Animation _ => true
  | .Tiling _ => true
  | _ => false

/-! ## Implicit tile-name reuse in the parser (src/parser/mod.rs:256-320) -/

inductive TileTag where
  | Text
  | Glyph
deriving DecidableEq, Repr

structure RawTile where
  name : String
  tag : Option TileTag
  variants : List Variant
  span : Nat
deriving DecidableEq, Repr

/-- `parse_tile` (src/parser/mod.rs:256-320), with the pest machinery
abstracted: `name` is the cell's name text and `vars` its already-parsed
variant list (the function's only error path is inside variant parsing,
which the claims do not touch).  Returns the updated `last_tile` (the Rust
function clears it through its `&mut` argument in the explicitly-empty
arm) together with the produced tile; `none` stands for `Ok(None)`.  In
the implicit-reuse arm `new_tile` is `false` and `last_tile.is_some()`
holds, so the carry condition
`!new_tile && variants.is_empty() && last_tile.is_some()` reduces to
`vars.isEmpty`; in the new-name arm `new_tile` is `true` and the condition
is false. -/
def parse_tile (last_tile : Option (Position × RawTile))
    (tag : Option TileTag) (name : String) (span : Nat)
    (vars : List Variant) :
    Option (Position × RawTile) × Option RawTile :=
  match name, last_tile with
  | "", some lt =>
    let variants := if vars.isEmpty then lt.2.variants else vars
    (some lt, some ⟨lt.2.name, tag, variants, span⟩)
  | "", none => (none, none)
  | ".", _ => (none, none)
  | n, lt => (lt, some ⟨n, tag, vars, span⟩)

/-! ## The `editor_objectlist.lua` merge (src/database/assets.rs:235-288)

The database's `tiles` map is embedded as an association list with
insert-or-replace; `BTreeSet<String>` tags are lists read as sets. -/

/-- `data.tags.union(&entry.tags)`: every element of either side, the
right-hand elements filtered against the left to keep set semantics. -/
def tags_union (a b : List String) : List String :=
  a ++ b.filter (fun s => ¬ a.contains s)

/-- The body of the merge loop (src/database/assets.rs:274-285): `entry`
is the existing map entry and `data` the freshly scraped tile; mandatory
fields come from `data`, each optional field is `data.<f>.or(entry.<f>)`,
and `tags` is the set union. -/
def merge_objlist_entry (entry data : TileData) : TileData :=
  { color := data.color
    sprite := data.sprite
    directory := data.directory
    tiling := data.tiling
    author := data.author
    tile_index := data.tile_index.or entry.tile_index
    grid_index := data.grid_index.or entry.grid_index
    object_id := data.object_id.or entry.object_id
    layer := data.layer.or entry.layer
    tags := tags_union data.tags entry.tags }

/-- Insert-or-replace on an association map. -/
def alist_insert {α : Type} (m : List (String × α)) (k : String) (v : α) :
    List (String × α) :=
  match m with
  | [] => [(k, v)]
  | (k', v') :: rest =>
    if k' = k then (k, v) :: rest else (k', v') :: alist_insert rest k v

/-- The merge loop of `load_vanilla_objlist` (src/database/assets.rs:272-286)
over the scraped `(name, data)` pairs: `self.tiles.entry(name).or_default()`
then overwrite with the merged record. -/
def objlist_merge (m : List (String × TileData))
    (tiles : List (String × TileData)) : List (String × TileData) :=
  tiles.foldl
    (fun m nd =>
      let entry := (m.lookup nd.1).getD TileData.default
      alist_insert m nd.1 (merge_objlist_entry entry nd.2))
    m

/-! ## Sprite opening and the fallback path (src/renderer/mod.rs:24-239)

The filesystem action (`ImageReader::open(path)?.decode()`) is an oracle
`fs : String → Except IOErrorKind Image` with images as opaque tokens; the
`Option<&mut HashMap<PathBuf, RgbaImage>>` cache is an optional
association list.  `handle_sprite` goes on to apply image-space variants
and ends in `todo!()`; the embedded fragment is the sprite-acquisition
`match` (lines 200-234), which is where the claimed behavior lives. -/

inductive IOErrorKind where
  | NotFound
  | Other (code : Nat)
deriving DecidableEq, Repr

/-- `RawSprite` (src/renderer/structures.rs): an image plus its color. -/
structure RawSprite where
  image : Nat
  color : Color
deriving DecidableEq, Repr

/-- The constructors of `RenderingError` the embedded fragment can
produce. -/
inductive RenderingError where
  | SpriteFailedOpen (span : Nat) (err : IOErrorKind)
  | SpriteNoTile (span : Nat) (text : String)
deriving DecidableEq, Repr

/-- `open_cached` (src/renderer/mod.rs:31-53): with a cache, a hit returns
the cached image; on a miss, run `imgen` and insert the image on success
(`or_try_insert_with` does not insert on error); with no cache, just run
`imgen`. -/
def open_cached (fs : String → Except IOErrorKind Nat) (path : String)
    (cache : Option (List (String × Nat))) :
    Except IOErrorKind Nat × Option (List (String × Nat)) :=
  match cache with
  | some c =>
    match c.lookup path with
    | some v => (.ok v, some c)
    | none =>
      match fs path with
      | .ok img => (.ok img, some (alist_insert c path img))
      | .error e => (.error e, some c)
  | none => (fs path, none)

/-- The sprite path
`asset_root/<directory>/sprites/<sprite>_<anim>_<wobble>.png` built at
src/renderer/mod.rs:202-209 (path separators written out). -/
def sprite_path (asset_path : String) (data : TileData)
    (anim wobble : Nat) : String :=
  asset_path ++ "/" ++ data.directory ++ "/sprites/" ++ data.sprite
    ++ "_" ++ toString anim ++ "_" ++ toString wobble ++ ".png"

/-- The `TileSkeletonType::Existing` arm of `handle_sprite`
(src/renderer/mod.rs:200-231): open the primary path; on a `NotFound`
error open the fallback path, and on success run
`cache.entry(sprite_path).or_insert(fallback)` — which returns the
occupied value if the primary key is (somehow) present and otherwise
inserts the fallback image under the primary key; any other failure is
`SpriteFailedOpen` with the tile's span. -/
def handle_sprite_existing (fs : String → Except IOErrorKind Nat)
    (asset_path : String) (cache : Option (List (String × Nat)))
    (data : TileData) (anim : Nat × Nat) (span : Nat) (wobble : Nat) :
    Except RenderingError RawSprite × Option (List (String × Nat)) :=
  let sp := sprite_path asset_path data anim.1 wobble
  let fp := sprite_path asset_path data anim.2 wobble
  match open_cached fs sp cache with
  | (.ok v, cache) => (.ok ⟨v, data.color⟩, cache)
  | (.error e, cache) =>
    if e = .NotFound then
      match open_cached fs fp cache with
      | (.ok fb, cache) =>
        match cache with
        | some c =>
          match c.lookup sp with
          | some occupied => (.ok ⟨occupied, data.color⟩, some c)
          | none => (.ok ⟨fb, data.color⟩, some (alist_insert c sp fb))
        | none => (.ok ⟨fb, data.color⟩, none)
      | (.error e2, cache) => (.error (.SpriteFailedOpen span e2), cache)
    else (.error (.SpriteFailedOpen span e), cache)

end Chilly

/-- Claim C1 (code_bug): the claim states `into_frames` never panics because
each diagonal bit is removed unless both adjacent cardinals are set.  In the
code the removal guard is `!self.contains(RIGHT & UP)` (and likewise for the
other three corners): the intersection of two disjoint single-bit flags is
the empty flag set, `contains(empty)` is always `true`, so no diagonal is
ever removed.  On the mask with only `UPRIGHT` set the table lookup returns
`None` and the `expect("we handled the other cases above")` panics, embedded
here as `none`. -/
theorem into_frames_panics_on_upright_only :
    Chilly.TileNeighbors.into_frames 0b00001000 = none ∧
    Chilly.TileNeighbors.contains 0
      (Chilly.TileNeighbors.RIGHT &&& Chilly.TileNeighbors.UP) = true := by
  constructor <;> rfl

/-- Claim C2 (code_bug): the claim states each neighbor bit is set iff the
map holds a tile at the corresponding `(x+dx, y+dy)` offset, and that a tile
with only east and south neighbors gets frames `(9, 9)`.  The
`check_neighbors!` macro computes the probed `y` from
`$seed.x.checked_add_signed($y)` — from the seed's `x` coordinate instead of
its `y`.  For a tile at `(0, 1)` with neighbors east `(1, 1)` and south
`(0, 2)` the claim's mask is `RIGHT|DOWN = 0b10010000` (frames `(9, 9)`),
but the code produces `DOWN|DOWNRIGHT = 0b00010001` — and `into_frames` on
that mask panics. -/
theorem check_neighbors_uses_x_for_y :
    Chilly.check_neighbors_mask
        [⟨0, 1, 0, 0⟩, ⟨1, 1, 0, 0⟩, ⟨0, 2, 0, 0⟩] ⟨0, 1, 0, 0⟩ false
      = 0b00010001 ∧
    Chilly.TileNeighbors.into_frames 0b00010001 = none ∧
    Chilly.TileNeighbors.into_frames 0b10010000 = some (9, 9) := by
  refine ⟨by decide, rfl, rfl⟩

/-- Claim C3 (code_bug): the claim states `from_str` on `#RRGGBB` returns
`RGB` with `r, g, b` the first, second and third hex byte pairs and that
displaying the result reproduces the input.  The source destructures
`rgb.to_be_bytes()` (big-endian: `[0x00, RR, GG, BB]` for a six-digit
value) with the pattern `[r, g, b, _]`, so `r` receives the always-zero
high byte, `g` receives `RR`, `b` receives `GG`, and `BB` is dropped:
`"#123456"` parses to `RGB {r: 0, g: 0x12, b: 0x34}` and displays as
`"#001234"`, not `"#123456"`. -/
theorem from_str_hex_shifts_bytes :
    Chilly.Color.from_str "#123456" = .ok (.RGB 0x00 0x12 0x34) ∧
    Chilly.Color.display (.RGB 0x00 0x12 0x34) = "#001234" ∧
    "#001234" ≠ "#123456" := by
  refine ⟨by decide, by decide, by decide⟩

/-- Claim C4 (code_bug): the claim states `from_alias` resolves the spec's
seven flags, mapping `"p"`, `"pal"`, `"palette"` to `Palette` and `"nl"`,
`"noloop"` to `NoLoop`.  The declaration table in src/arguments/flags.rs
contains only `BackgroundColor`, `ConnectBorders` and `UseLetters`; the
`FlagName` enum has no `Palette` or `NoLoop` case at all, even though the
renderer (src/renderer/mod.rs:112-149) matches on `FlagName::NoLoop`,
`FlagName::Palette`, `FlagName::WobbleFrames` and
`FlagName::DecoupleWobble`, so every spec'd alias of those flags resolves
to `None`. -/
theorem from_alias_missing_four_flags :
    Chilly.FlagName.from_alias "p" = none ∧
    Chilly.FlagName.from_alias "pal" = none ∧
    Chilly.FlagName.from_alias "palette" = none ∧
    Chilly.FlagName.from_alias "nl" = none ∧
    Chilly.FlagName.from_alias "noloop" = none ∧
    Chilly.FlagName.from_alias "b" = some .BackgroundColor := by
  refine ⟨by decide, by decide, by decide, by decide, by decide, by decide⟩

/-- Claim C5 (code_bug): the claim states the `Edge` kernel clears the
center and the four corners and the `Unit` kernel clears the center and the
two top corners.  For size 1 the kernel is 3×3 with coordinates `0..=2`,
but the source compares `x` and `y` against `width` (= 3) instead of
`width - 1`, so those guards never fire: only the top-left corner `(0, 0)`
is cleared, and the top-right corner `(2, 0)` stays set in both the `Edge`
and `Unit` kernels. -/
theorem of_size_corners_not_cleared :
    Chilly.MetaKernel.of_size_pixel .Edge 1 2 0 = 255 ∧
    Chilly.MetaKernel.of_size_pixel .Edge 1 0 0 = 0 ∧
    Chilly.MetaKernel.of_size_pixel .Unit 1 2 0 = 255 ∧
    Chilly.MetaKernel.of_size_pixel .Full 1 1 1 = 0 := by
  refine ⟨by decide, by decide, by decide, by decide⟩

/-- Arithmetic content of the `Sleep` arm: `u8` wrapping `f - 1` followed
by `% 32` agrees with the spec's reading `(f - 1) mod 32, with 0 → 31`. -/
theorem wrapping_sub_one_mod32 (f : Nat) (hf : f < 256) :
    ((f + 255) % 256) % 32 = if f = 0 then 31 else (f - 1) % 32 := by
  rcases Nat.eq_zero_or_pos f with h | h
  · subst h; rfl
  · rw [if_neg (by omega)]
    have h1 : f + 255 = (f - 1) + 256 := by omega
    rw [h1, Nat.add_mod_right, Nat.mod_eq_of_lt (show f - 1 < 256 by omega)]

/-- Claim C6 (confirmed): the `Sleep` arm of the variant fold takes the
current primary frame `f` (0 if no frame-setting variant preceded), sets
the primary to the wrapping `(f - 1) mod 32` — so `0 → 31` — and the
fallback to `f`; a tile whose only variant is `sleep` gets the frame pair
`(31, 0)` with an empty residual list. -/
theorem sleep_sets_wrapped_frame (f g : Nat) (hf : f < 256) :
    Chilly.apply_frame_variant (some (f, g)) .Sleep
      = some (some ((if f = 0 then 31 else (f - 1) % 32), f), false) ∧
    Chilly.fold_frame_variants [.Sleep] = some (some (31, 0), []) := by
  constructor
  · have h : Chilly.apply_frame_variant (some (f, g)) .Sleep
        = some (some (((f + 255) % 256) % 32, f), false) := rfl
    rw [h, wrapping_sub_one_mod32 f hf]
  · rfl

/-- Witness for C6 at `f = 5`, `g = 7`. -/
theorem sleep_sets_wrapped_frame_witness :
    (5 : Nat) < 256 ∧
    (Chilly.apply_frame_variant (some (5, 7)) .Sleep
       = some (some ((if (5 : Nat) = 0 then 31 else (5 - 1) % 32), 5), false) ∧
     Chilly.fold_frame_variants [.Sleep] = some (some (31, 0), [])) :=
  ⟨by decide, sleep_sets_wrapped_frame 5 7 (by decide)⟩

/-- A variant the fold's catch-all keeps leaves the `anim_frame` state
untouched. -/
theorem apply_frame_variant_not_setting (af : Option (Nat × Nat))
    (v : Chilly.Variant) (h : Chilly.is_frame_setting v = false) :
    Chilly.apply_frame_variant af v = some (af, true) := by
  cases v <;> simp only [Chilly.is_frame_setting] at h <;> first | rfl | cases h

/-- Folding a list with no frame-setting variant keeps every variant and
never sets a frame, from any intermediate state. -/
theorem foldlM_no_frame_setting (vs : List Chilly.Variant)
    (af : Option (Nat × Nat)) (acc : List Chilly.Variant)
    (h : ∀ v ∈ vs, Chilly.is_frame_setting v = false) :
    vs.foldlM Chilly.fold_step (af, acc) = some (af, acc ++ vs) := by
  induction vs generalizing acc with
  | nil => simp
  | cons v rest ih =>
    have hv : Chilly.fold_step (af, acc) v = some (af, acc ++ [v]) := by
      unfold Chilly.fold_step
      rw [apply_frame_variant_not_setting af v (h v (by simp))]
      rfl
    rw [List.foldlM_cons, hv]
    have := ih (acc ++ [v]) (fun w hw => h w (by simp [hw]))
    simpa using this

/-- Claim C10 (confirmed): a cell whose variant list contains no
frame-setting variant (`AnimationFrame`, `Left/Up/Down/Right`, `Sleep`,
`Animation`, `Tiling`) and that does not resolve to a database tile with
`AutoTiled` tiling gets the animation-frame pair `(0, 0)` — in particular
every `Generative` cell (`dbResult = none`), regardless of its spatial
neighbors. -/
theorem no_frame_variant_gives_zero_frames
    (dbResult : Option Chilly.TileData) (map : List Chilly.Position)
    (pos : Chilly.Position) (conn : Bool) (name : String)
    (vs : List Chilly.Variant) (span : Nat)
    (h1 : ∀ v ∈ vs, Chilly.is_frame_setting v = false)
    (h2 : ∀ d ∈ dbResult, d.tiling ≠ Chilly.Tiling.AutoTiled) :
    Chilly.solidify_cell dbResult map pos conn name vs span
      = some ⟨(match dbResult with
               | some d => .Existing d
               | none => .Generative name), (0, 0), vs, span⟩ := by
  unfold Chilly.solidify_cell
  have hfold : Chilly.fold_frame_variants vs = some (none, vs) := by
    unfold Chilly.fold_frame_variants
    simpa using foldlM_no_frame_setting vs none [] h1
  rw [hfold]
  cases dbResult with
  | none => rfl
  | some d =>
    have hd := h2 d (by simp)
    simp [hd]

/-- Witness for C10: a `Generative` cell with residual-only variants. -/
theorem no_frame_variant_gives_zero_frames_witness :
    (∀ v ∈ [Chilly.Variant.Color (.Paletted 1 2), Chilly.Variant.Noop],
      Chilly.is_frame_setting v = false) ∧
    (∀ d ∈ (none : Option Chilly.TileData),
      d.tiling ≠ Chilly.Tiling.AutoTiled) ∧
    Chilly.solidify_cell none [] ⟨0, 0, 0, 0⟩ false "keke"
        [.Color (.Paletted 1 2), .Noop] 3
      = some ⟨.Generative "keke", (0, 0), [.Color (.Paletted 1 2), .Noop], 3⟩ :=
  ⟨by decide, by simp,
   no_frame_variant_gives_zero_frames none [] ⟨0, 0, 0, 0⟩ false "keke"
     [.Color (.Paletted 1 2), .Noop] 3 (by decide) (by simp)⟩

/-- Claim C8 (confirmed): a cell that implicitly reuses the previous
tile's name (empty name with a predecessor in the strip) inherits the
previous tile's variant list verbatim when it supplies none of its own,
and keeps exactly the supplied list — no merging — when it supplies any. -/
theorem implicit_reuse_variant_carry
    (p : Chilly.Position) (prev : Chilly.RawTile) (tag : Option Chilly.TileTag)
    (span : Nat) (vars : List Chilly.Variant) (hv : vars ≠ []) :
    Chilly.parse_tile (some (p, prev)) tag "" span []
      = (some (p, prev), some ⟨prev.name, tag, prev.variants, span⟩) ∧
    Chilly.parse_tile (some (p, prev)) tag "" span vars
      = (some (p, prev), some ⟨prev.name, tag, vars, span⟩) := by
  constructor
  · rfl
  · cases vars with
    | nil => exact absurd rfl hv
    | cons a l => rfl

/-- Witness for C8: reuse of `baba`, once without and once with supplied
variants. -/
theorem implicit_reuse_variant_carry_witness :
    ([Chilly.Variant.Noop] ≠ ([] : List Chilly.Variant)) ∧
    (Chilly.parse_tile (some (⟨0, 0, 0, 0⟩, ⟨"baba", none, [.Sleep], 2⟩))
        none "" 9 []
      = (some (⟨0, 0, 0, 0⟩, ⟨"baba", none, [.Sleep], 2⟩),
         some ⟨"baba", none, [.Sleep], 9⟩) ∧
     Chilly.parse_tile (some (⟨0, 0, 0, 0⟩, ⟨"baba", none, [.Sleep], 2⟩))
        none "" 9 [.Noop]
      = (some (⟨0, 0, 0, 0⟩, ⟨"baba", none, [.Sleep], 2⟩),
         some ⟨"baba", none, [.Noop], 9⟩)) :=
  ⟨by decide,
   implicit_reuse_variant_carry ⟨0, 0, 0, 0⟩ ⟨"baba", none, [.Sleep], 2⟩
     none 9 [.Noop] (by decide)⟩

/-- Looking an inserted key up finds the inserted value. -/
theorem alist_lookup_insert {α : Type} (m : List (String × α)) (k : String)
    (v : α) : (Chilly.alist_insert m k v).lookup k = some v := by
  induction m with
  | nil => simp [Chilly.alist_insert, List.lookup]
  | cons p rest ih =>
    rcases p with ⟨k', v'⟩
    by_cases h : k' = k
    · simp [Chilly.alist_insert, h, List.lookup]
    · have h2 : (k == k') = false := beq_eq_false_iff_ne.mpr (fun hk => h hk.symm)
      simp [Chilly.alist_insert, h, h2, List.lookup, ih]

/-- Membership in the embedded tag union is membership in either side. -/
theorem mem_tags_union (a b : List String) (s : String) :
    s ∈ Chilly.tags_union a b ↔ s ∈ a ∨ s ∈ b := by
  simp [Chilly.tags_union, List.contains]
  tauto

/-- Claim C9 (confirmed): merging a scraped `editor_objectlist.lua` entry
into a database that already holds the name replaces the mapping with a
record in which each optional field (`tile_index`, `grid_index`,
`object_id`, `layer`) comes from the new entry when present and from the
existing entry otherwise, and whose `tags` are the set union of both. -/
theorem objlist_merge_prefers_new
    (m : List (String × Chilly.TileData)) (name : String)
    (oldD newD : Chilly.TileData)
    (h : m.lookup name = some oldD) :
    (Chilly.objlist_merge m [(name, newD)]).lookup name
        = some (Chilly.merge_objlist_entry oldD newD) ∧
    (∀ v, newD.tile_index = some v →
      (Chilly.merge_objlist_entry oldD newD).tile_index = some v) ∧
    (newD.tile_index = none →
      (Chilly.merge_objlist_entry oldD newD).tile_index = oldD.tile_index) ∧
    (∀ v, newD.grid_index = some v →
      (Chilly.merge_objlist_entry oldD newD).grid_index = some v) ∧
    (newD.grid_index = none →
      (Chilly.merge_objlist_entry oldD newD).grid_index = oldD.grid_index) ∧
    (∀ v, newD.object_id = some v →
      (Chilly.merge_objlist_entry oldD newD).object_id = some v) ∧
    (newD.object_id = none →
      (Chilly.merge_objlist_entry oldD newD).object_id = oldD.object_id) ∧
    (∀ v, newD.layer = some v →
      (Chilly.merge_objlist_entry oldD newD).layer = some v) ∧
    (newD.layer = none →
      (Chilly.merge_objlist_entry oldD newD).layer = oldD.layer) ∧
    (∀ s, s ∈ (Chilly.merge_objlist_entry oldD newD).tags ↔
      s ∈ newD.tags ∨ s ∈ oldD.tags) := by
  refine ⟨?_, ?_, ?_, ?_, ?_, ?_, ?_, ?_, ?_, ?_⟩
  · show (Chilly.alist_insert m name
        (Chilly.merge_objlist_entry ((m.lookup name).getD Chilly.TileData.default)
          newD)).lookup name = _
    rw [h]
    exact alist_lookup_insert m name _
  · intro v hv; simp [Chilly.merge_objlist_entry, hv, Option.or]
  · intro hv; simp [Chilly.merge_objlist_entry, hv, Option.or]
  · intro v hv; simp [Chilly.merge_objlist_entry, hv, Option.or]
  · intro hv; simp [Chilly.merge_objlist_entry, hv, Option.or]
  · intro v hv; simp [Chilly.merge_objlist_entry, hv, Option.or]
  · intro hv; simp [Chilly.merge_objlist_entry, hv, Option.or]
  · intro v hv; simp [Chilly.merge_objlist_entry, hv, Option.or]
  · intro hv; simp [Chilly.merge_objlist_entry, hv, Option.or]
  · intro s; exact mem_tags_union newD.tags oldD.tags s

/-- Witness for C9: a database holding `baba` merged with a fresh `baba`
entry. -/
theorem objlist_merge_prefers_new_witness :
    (([("baba", Chilly.TileData.default)] :
        List (String × Chilly.TileData)).lookup "baba"
      = some Chilly.TileData.default) ∧
    ((Chilly.objlist_merge [("baba", Chilly.TileData.default)]
        [("baba", Chilly.TileData.default)]).lookup "baba"
        = some (Chilly.merge_objlist_entry Chilly.TileData.default
            Chilly.TileData.default) ∧
     (∀ v, Chilly.TileData.default.tile_index = some v →
       (Chilly.merge_objlist_entry Chilly.TileData.default
         Chilly.TileData.default).tile_index = some v) ∧
     (Chilly.TileData.default.tile_index = none →
       (Chilly.merge_objlist_entry Chilly.TileData.default
         Chilly.TileData.default).tile_index
           = Chilly.TileData.default.tile_index) ∧
     (∀ v, Chilly.TileData.default.grid_index = some v →
       (Chilly.merge_objlist_entry Chilly.TileData.default
         Chilly.TileData.default).grid_index = some v) ∧
     (Chilly.TileData.default.grid_index = none →
       (Chilly.merge_objlist_entry Chilly.TileData.default
         Chilly.TileData.default).grid_index
           = Chilly.TileData.default.grid_index) ∧
     (∀ v, Chilly.TileData.default.object_id = some v →
       (Chilly.merge_objlist_entry Chilly.TileData.default
         Chilly.TileData.default).object_id = some v) ∧
     (Chilly.TileData.default.object_id = none →
       (Chilly.merge_objlist_entry Chilly.TileData.default
         Chilly.TileData.default).object_id
           = Chilly.TileData.default.object_id) ∧
     (∀ v, Chilly.TileData.default.layer = some v →
       (Chilly.merge_objlist_entry Chilly.TileData.default
         Chilly.TileData.default).layer = some v) ∧
     (Chilly.TileData.default.layer = none →
       (Chilly.merge_objlist_entry Chilly.TileData.default
         Chilly.TileData.default).layer = Chilly.TileData.default.layer) ∧
     (∀ s, s ∈ (Chilly.merge_objlist_entry Chilly.TileData.default
         Chilly.TileData.default).tags ↔
       s ∈ Chilly.TileData.default.tags ∨
       s ∈ Chilly.TileData.default.tags)) :=
  ⟨by decide,
   objlist_merge_prefers_new [("baba", Chilly.TileData.default)] "baba"
     Chilly.TileData.default Chilly.TileData.default (by decide)⟩

/-- Looking up a key other than the inserted one is unchanged. -/
theorem alist_lookup_insert_ne {α : Type} (m : List (String × α))
    (k k' : String) (v : α) (h : ¬ k' = k) :
    (Chilly.alist_insert m k v).lookup k' = m.lookup k' := by
  have hkk : (k' == k) = false := beq_eq_false_iff_ne.mpr h
  induction m with
  | nil => simp [Chilly.alist_insert, List.lookup, hkk]
  | cons p rest ih =>
    rcases p with ⟨a, b⟩
    by_cases ha : a = k
    · subst ha
      simp [Chilly.alist_insert, List.lookup, hkk]
    · cases hka : (k' == a) <;>
        simp [Chilly.alist_insert, ha, List.lookup, hka, ih]

/-- Claim C7 (confirmed): when opening an `Existing` tile's sprite at the
primary-frame path fails with `NotFound`, the renderer retries the
fallback-frame path; when the retry succeeds with a cache present, the
fallback image ends up in the cache under the primary path's key; a
non-`NotFound` primary error, and any failure of the fallback open,
propagate as `SpriteFailedOpen` with the tile's span. -/
theorem sprite_fallback_behavior
    (fs : String → Except Chilly.IOErrorKind Nat)
    (c : List (String × Nat)) (asset : String) (data : Chilly.TileData)
    (anim : Nat × Nat) (span wobble : Nat) :
    (∀ v,
      c.lookup (Chilly.sprite_path asset data anim.1 wobble) = none →
      fs (Chilly.sprite_path asset data anim.1 wobble) = .error .NotFound →
      c.lookup (Chilly.sprite_path asset data anim.2 wobble) = none →
      fs (Chilly.sprite_path asset data anim.2 wobble) = .ok v →
      ¬ Chilly.sprite_path asset data anim.1 wobble
          = Chilly.sprite_path asset data anim.2 wobble →
      Chilly.handle_sprite_existing fs asset (some c) data anim span wobble
        = (.ok ⟨v, data.color⟩,
           some (Chilly.alist_insert
             (Chilly.alist_insert c
               (Chilly.sprite_path asset data anim.2 wobble) v)
             (Chilly.sprite_path asset data anim.1 wobble) v))) ∧
    (∀ e,
      c.lookup (Chilly.sprite_path asset data anim.1 wobble) = none →
      fs (Chilly.sprite_path asset data anim.1 wobble) = .error e →
      e ≠ .NotFound →
      Chilly.handle_sprite_existing fs asset (some c) data anim span wobble
        = (.error (.SpriteFailedOpen span e), some c)) ∧
    (∀ e2,
      c.lookup (Chilly.sprite_path asset data anim.1 wobble) = none →
      fs (Chilly.sprite_path asset data anim.1 wobble) = .error .NotFound →
      c.lookup (Chilly.sprite_path asset data anim.2 wobble) = none →
      fs (Chilly.sprite_path asset data anim.2 wobble) = .error e2 →
      Chilly.handle_sprite_existing fs asset (some c) data anim span wobble
        = (.error (.SpriteFailedOpen span e2), some c)) := by
  refine ⟨?_, ?_, ?_⟩
  · intro v h1 h2 h3 h4 hne
    have h5 := alist_lookup_insert_ne c
      (Chilly.sprite_path asset data anim.2 wobble)
      (Chilly.sprite_path asset data anim.1 wobble) v hne
    simp only [Chilly.handle_sprite_existing, Chilly.open_cached,
      h1, h2, h3, h4, h5]
    simp
  · intro e h1 h2 h3
    simp only [Chilly.handle_sprite_existing, Chilly.open_cached, h1, h2]
    simp [h3]
  · intro e2 h1 h2 h3 h4
    simp only [Chilly.handle_sprite_existing, Chilly.open_cached,
      h1, h2, h3, h4]
    simp

/-- Witness for C7: an empty cache, a filesystem where only the fallback
path `…_1_1.png` exists, and the default tile data. -/
theorem sprite_fallback_behavior_witness :
    (([] : List (String × Nat)).lookup
        (Chilly.sprite_path "a" Chilly.TileData.default 0 1) = none) ∧
    ((fun p => if p = "a/vanilla/sprites/error_1_1.png"
        then (Except.ok 42 : Except Chilly.IOErrorKind Nat)
        else .error .NotFound)
      (Chilly.sprite_path "a" Chilly.TileData.default 0 1)
        = .error .NotFound) ∧
    (([] : List (String × Nat)).lookup
        (Chilly.sprite_path "a" Chilly.TileData.default 1 1) = none) ∧
    ((fun p => if p = "a/vanilla/sprites/error_1_1.png"
        then (Except.ok 42 : Except Chilly.IOErrorKind Nat)
        else .error .NotFound)
      (Chilly.sprite_path "a" Chilly.TileData.default 1 1) = .ok 42) ∧
    (¬ Chilly.sprite_path "a" Chilly.TileData.default 0 1
        = Chilly.sprite_path "a" Chilly.TileData.default 1 1) ∧
    Chilly.handle_sprite_existing
        (fun p => if p = "a/vanilla/sprites/error_1_1.png"
          then (Except.ok 42 : Except Chilly.IOErrorKind Nat)
          else .error .NotFound)
        "a" (some []) Chilly.TileData.default (0, 1) 5 1
      = (.ok ⟨42, Chilly.TileData.default.color⟩,
         some (Chilly.alist_insert
           (Chilly.alist_insert []
             (Chilly.sprite_path "a" Chilly.TileData.default 1 1) 42)
           (Chilly.sprite_path "a" Chilly.TileData.default 0 1) 42)) :=
  ⟨by decide, by decide, by decide, by decide, by decide,
   (sprite_fallback_behavior
      (fun p => if p = "a/vanilla/sprites/error_1_1.png"
        then (Except.ok 42 : Except Chilly.IOErrorKind Nat)
        else .error .NotFound)
      [] "a" Chilly.TileData.default (0, 1) 5 1).1 42
     (by decide) (by decide) (by decide) (by decide) (by decide)⟩
